import Mathlib

/-!
Shallow embedding of the untrusted-code admission and execution pipeline of the
Excel AI Engine repository.  The definitions below are translated from
`backend.py` (the FastAPI `/analyze` handler `analyze_uploaded_data`) and
`main.py` (the CLI main loop).  The language-model call and the Python `exec`
runtime are external collaborators and are represented by oracles
(`String → Sink → ExecResult`); everything the repository itself does to the
code string — cleaning, the denylist scan, output capture and restoration,
and result classification — is embedded as executable Lean functions.
-/

/-- Is `pat` a prefix of `s` (on character lists)? -/
def isPrefixChars : List Char → List Char → Bool
  | [], _ => true
  | _ :: _, [] => false
  | a :: as, b :: bs => a == b && isPrefixChars as bs

/-- Does the character sequence `pat` occur inside `s`? -/
def occursChars (pat : List Char) : List Char → Bool
  | [] => pat == []
  | c :: rest => isPrefixChars pat (c :: rest) || occursChars pat rest

/-- Boolean substring occurrence test: does `pat` occur inside `s`?  This
models the Python `pat in s` membership test, and `re.search` applied to a
literal alternation of such patterns. -/
def substrIn (pat s : String) : Bool :=
  occursChars pat.data s.data

/-- Models Python `str.strip()`: drop whitespace from both ends. -/
def pyStrip (s : String) : String :=
  ⟨((s.data.dropWhile Char.isWhitespace).reverse.dropWhile Char.isWhitespace).reverse⟩

/-- Models Python `str.startswith(pat)`. -/
def startsW (pat s : String) : Bool :=
  isPrefixChars pat.data s.data

/-- Split a character list at every occurrence of the separator character. -/
def splitCh (sep : Char) : List Char → List (List Char)
  | [] => [[]]
  | c :: rest =>
    if c == sep then [] :: splitCh sep rest
    else
      match splitCh sep rest with
      | [] => [[c]]
      | h :: t => (c :: h) :: t

/-- The lines of a string, split at newline characters; models Python
`str.splitlines()` on newline-terminated text. -/
def splitLines (s : String) : List String :=
  (splitCh (Char.ofNat 10) s.data).map fun l => ⟨l⟩

/-- Fuel-indexed worker for replacement of every occurrence of `pat` by
`rep`, scanning left to right; the fuel bounds the scan length so the
recursion is structural. -/
def replaceAux (pat rep : List Char) : Nat → List Char → List Char
  | _, [] => []
  | 0, s => s
  | Nat.succ n, c :: rest =>
    if pat != [] && isPrefixChars pat (c :: rest) then
      rep ++ replaceAux pat rep n (List.drop (pat.length - 1) rest)
    else
      c :: replaceAux pat rep n rest

/-- Models Python `str.replace(pat, rep)` for nonempty `pat`: every
non-overlapping occurrence, scanned left to right, is replaced. -/
def strReplace (s pat rep : String) : String :=
  ⟨replaceAux pat.data rep.data s.data.length s.data⟩

/-- A single apostrophe, kept as a named constant so the token literals below
match the Python source text exactly. -/
def apos : String := String.singleton (Char.ofNat 39)

/- ===================  Code Intake & Normalizer (backend.py 200-210) =================== -/

/-- A line survives the backend code cleaner exactly when its stripped form
neither begins with `import ` nor begins with a code-fence marker
(backend.py lines 202-209: lines failing either test are skipped with
`continue`). -/
def keepLine (line : String) : Bool :=
  !(startsW "import " (pyStrip line)) && !(startsW "```" (pyStrip line))

/-- The line-filtering phase of the backend code cleaner (backend.py 201-209). -/
def cleanLines (ls : List String) : List String :=
  ls.filter keepLine

/-- The backend code cleaner (backend.py 200-210): split into lines, drop
import-directive lines and fence-marker lines, rejoin with newlines, and strip
surrounding whitespace. -/
def cleanCode (raw : String) : String :=
  pyStrip (String.intercalate "\n" (cleanLines (splitLines raw)))

/- ===================  Admission Gate =================== -/

/-- The backend denylist (backend.py line 214:
`dangerous_words = ["os.", "sys", "subprocess", "open(", "exec(", "__"]`). -/
def dangerous_words : List String :=
  ["os.", "sys", "subprocess", "open(", "exec(", "__"]

/-- The escape-hatch text scanned for at backend.py line 215: the literal
source text `safe_globals[` + apostrophe + `__builtins__` + apostrophe + `]`. -/
def bypassToken : String :=
  "safe_globals[" ++ apos ++ "__builtins__" ++ apos ++ "]"

/-- Rejection condition of the backend admission gate (backend.py line 215):
some dangerous word occurs in the code AND the escape-hatch text does not. -/
def backendRejects (code : String) : Bool :=
  (dangerous_words.any fun w => substrIn w code) && !(substrIn bypassToken code)

/-- The CLI denylist (main.py line 115), the literal alternatives of the regex
`import|os\.|sys\.|subprocess|open\(|exec\(|__`. -/
def mainPatterns : List String :=
  ["import", "os.", "sys.", "subprocess", "open(", "exec(", "__"]

/-- Rejection condition of the CLI admission gate (main.py line 167):
`re.search(FORBIDDEN_PATTERNS, ai_code)` finds some pattern as a substring. -/
def mainRejects (code : String) : Bool :=
  mainPatterns.any fun w => substrIn w code

/-- The CLI normalizer (main.py line 161): strip, delete every occurrence of
the python-tagged fence then of the bare fence, strip again. -/
def mainNormalize (raw : String) : String :=
  pyStrip (strReplace (strReplace (pyStrip raw) "```python" "") "```" "")

/-- Outcome of one iteration of the CLI main loop after the model returned
`raw` (main.py lines 161-179), up to the point where execution would start. -/
inductive MainOutcome where
  | emptyError
  | securityBlock (code : String)
  | runPlot (code : String)
  | runEval (code : String)
deriving DecidableEq

/-- One iteration of the CLI main loop on the model output `raw`
(main.py 161-179): empty code is reported first, then the denylist scan, then
the plot-vs-data mode split that decides between `exec` and `eval`. -/
def mainStep (raw : String) : MainOutcome :=
  let code := mainNormalize raw
  if code = "" then MainOutcome.emptyError
  else if mainRejects code then MainOutcome.securityBlock code
  else if substrIn "plt." code || substrIn "sns." code then MainOutcome.runPlot code
  else MainOutcome.runEval code

/- ===================  Data model =================== -/

/-- A loaded table: column headers plus rows of cell texts.  Models a pandas
DataFrame at the granularity the pipeline observes (headers, row list). -/
structure DataFrame where
  cols : List String
  rows : List (List String)
deriving DecidableEq

/-- `df.head(n)`: the frame restricted to its first `n` rows. -/
def DataFrame.head (d : DataFrame) (n : Nat) : DataFrame :=
  ⟨d.cols, d.rows.take n⟩

/-- A Python value observable in the executed code's local scope: a DataFrame,
a Series, or any other object carried by its textual form. -/
inductive PyValue where
  | frame (d : DataFrame)
  | series (sname : String) (vals : List String)
  | other (text : String)
deriving DecidableEq

/-- One rendered table line: cells joined by column separators. -/
def renderRow (cells : List String) : String :=
  "| " ++ String.intercalate " | " cells ++ " |"

/-- A psql-style separator line, one dash group per column. -/
def sepRow (d : DataFrame) : String :=
  "|" ++ String.intercalate "+" (d.cols.map fun _ => "------") ++ "|"

/-- The lines of the tabular rendering: header line, separator, one line per
data row. -/
def tableLines (d : DataFrame) : List String :=
  renderRow d.cols :: sepRow d :: d.rows.map renderRow

/-- Models the third-party `tabulate(df, headers="keys", tablefmt="psql")`
call used at backend.py 246-248: a deterministic text table whose first line
carries the column headers and which has exactly one line per data row. -/
def tabulate (d : DataFrame) : String :=
  String.intercalate "\n" (tableLines d)

/-- `series.to_frame()`: a one-column frame headed by the series name. -/
def seriesFrame (sname : String) (vals : List String) : DataFrame :=
  ⟨[sname], vals.map fun v => [v]⟩

/-- Models pandas' default textual form of a frame (its `str()`), used only
when a frame reaches a plain stringification site. -/
def dfText (d : DataFrame) : String :=
  String.intercalate "\n"
    (String.intercalate "  " d.cols :: d.rows.map (String.intercalate "  "))

/-- Models Python `str(v)` on a captured local value.  For a value that is
neither frame nor series, `str` returns the value's own textual form, which
the embedding carries in the `other` constructor. -/
def pyStr : PyValue → String
  | PyValue.frame d => dfText d
  | PyValue.series sname vals => dfText (seriesFrame sname vals)
  | PyValue.other text => text

/- ===================  Execution sandbox state =================== -/

/-- The fault raised by executing admitted code: the exception class name
(Python `type(e).__name__`) and its message (Python `str(e)`). -/
structure Fault where
  kind : String
  msg : String
deriving DecidableEq

/-- Result of the `exec` collaborator: the text it printed and the local
bindings it created, or a raised fault. -/
inductive ExecResult where
  | ok (printOutput : String) (locals : List (String × PyValue))
  | fault (f : Fault)
deriving DecidableEq

/-- Where standard output currently goes: the process's real stdout, or an
in-memory capture buffer (`io.StringIO`). -/
inductive Sink where
  | real
  | buffer (contents : String)
deriving DecidableEq

/-- The interpreter state the pipeline mutates: the current `sys.stdout`
binding and the immutable original `sys.__stdout__`. -/
structure SysState where
  stdout : Sink
  dunderStdout : Sink
deriving DecidableEq

/-- The capture block of backend.py 225-230: `sys.stdout` is pointed at a
fresh buffer, the code is executed against that sink, and on both the normal
arm and the fault arm (the `finally`) `sys.stdout` is reset to
`sys.__stdout__`. -/
def runCaptured (e : String → Sink → ExecResult) (code : String) (s : SysState) :
    ExecResult × SysState :=
  let s1 : SysState := { s with stdout := Sink.buffer "" }
  match e code s1.stdout with
  | ExecResult.ok out l => (ExecResult.ok out l, { s1 with stdout := s.dunderStdout })
  | ExecResult.fault f => (ExecResult.fault f, { s1 with stdout := s.dunderStdout })

/- ===================  Result Interpreter (backend.py 232-266) =================== -/

/-- The response model `QueryResponse` (backend.py 49-53). -/
structure Response where
  result : String
  executed_code : String
  is_plot : Bool
  plot_path : Option String
deriving DecidableEq

/-- The HTTPException payload: status code and detail text. -/
structure HTTPError where
  status_code : Nat
  detail : String
deriving DecidableEq

deriving instance DecidableEq for Except

/-- The chart-marker probe text of backend.py line 234. -/
def plotMarker : String := "Plot saved to plots/"

/-- The marker text deleted at backend.py line 236. -/
def markerText : String := "Plot saved to "

/-- The no-result placeholder of backend.py line 260. -/
def noResultMsg : String := "Code executed, but no result was returned."

/-- `os.path.basename`: the segment after the final slash. -/
def basename (p : String) : String :=
  ((splitCh (Char.ofNat 47) p.data).map fun l => (⟨l⟩ : String)).getLastD ""

/-- The ordered result classification of backend.py 232-260: (1) chart marker
in the stripped captured output; (2) else a `result_df` local, tabulated when
it is a frame or series and stringified otherwise; (3) else a `result_value`
local, stringified; (4) else the captured output or the placeholder. -/
def classify (code printRaw : String) (locals : List (String × PyValue)) : Response :=
  let pout := pyStrip printRaw
  if substrIn plotMarker pout then
    let rel := pyStrip (strReplace pout markerText "")
    ⟨pout, code, true, some (basename rel)⟩
  else
    match locals.lookup "result_df" with
    | some (PyValue.frame d) =>
        ⟨tabulate (DataFrame.head d 20), code, false, none⟩
    | some (PyValue.series sname vals) =>
        ⟨tabulate (DataFrame.head (seriesFrame sname vals) 20), code, false, none⟩
    | some (PyValue.other text) =>
        ⟨text, code, false, none⟩
    | none =>
      match locals.lookup "result_value" with
      | some v => ⟨pyStr v, code, false, none⟩
      | none => ⟨if pout = "" then noResultMsg else pout, code, false, none⟩

/-- The admission-and-execution section of the `/analyze` handler
(backend.py 200-272) after the model returned `raw`: clean the code, run the
denylist scan (403 on rejection, raised before any execution or state
change), otherwise execute under output capture and either classify the
outcome or wrap a raised fault into the 500 detail string of backend.py
line 272. -/
def backendPipeline (e : String → Sink → ExecResult) (raw : String) (s : SysState) :
    Except HTTPError Response × SysState :=
  let code := cleanCode (pyStrip raw)
  if backendRejects code then
    (Except.error ⟨403, "Unsafe operation detected."⟩, s)
  else
    match runCaptured e code s with
    | (ExecResult.fault f, s2) =>
        (Except.error ⟨500,
          "Error executing AI code: " ++ f.kind ++ ": " ++ f.msg ++
            ". AI Code: " ++ code⟩, s2)
    | (ExecResult.ok pout locals, s2) =>
        (Except.ok (classify code pout locals), s2)

/- ===================  Binding environment (backend.py 85-92, 121) =================== -/

/-- A value bound in the execution environment: the curated builtins mapping,
an injected library module, or an uploaded table. -/
inductive EnvVal where
  | builtinsDict (names : List String)
  | module (modName : String)
  | table (d : DataFrame)
deriving DecidableEq

/-- The names of the curated `__builtins__` mapping (backend.py 86-90). -/
def safe_builtins : List String :=
  ["print", "len", "round", "abs", "sum", "min", "max", "str", "int", "float"]

/-- The `safe_globals` environment as built per request (backend.py 85-92 plus
the per-sheet `safe_globals[var_name] = df` insertions at line 121): the
builtins slot, the four library modules, and one binding per uploaded table. -/
def buildEnv (tables : List (String × DataFrame)) : List (String × EnvVal) :=
  ("__builtins__", EnvVal.builtinsDict safe_builtins) ::
  ("pd", EnvVal.module "pandas") ::
  ("np", EnvVal.module "numpy") ::
  ("plt", EnvVal.module "matplotlib.pyplot") ::
  ("sns", EnvVal.module "seaborn") ::
  tables.map fun p => (p.1, EnvVal.table p.2)

/-- The policy primitives' names: the bindings present in every environment
independent of the uploaded tables. -/
def baseEnvNames : List String :=
  ["__builtins__", "pd", "np", "plt", "sns"]

/-- A name is token-free when no word of the denylist occurs inside it. -/
def tokenFree (n : String) : Bool :=
  dangerous_words.all fun w => !(substrIn w n)

/-- Names of filesystem, process, network, or reflection primitives that the
curated builtins mapping must not contain. -/
def dangerousPrims : List String :=
  ["open", "exec", "eval", "compile", "getattr", "setattr", "delattr",
   "input", "vars", "globals", "locals", "type", "__import__", "system",
   "socket", "file"]

/- ===================  Concrete instances used in witnesses =================== -/

/-- An execution oracle that prints nothing and binds nothing. -/
def eOk : String → Sink → ExecResult := fun _ _ => ExecResult.ok "" []

/-- An execution oracle that prints a distinctive marker, used to show that a
given input actually reaches the execution step. -/
def eExec : String → Sink → ExecResult := fun _ _ => ExecResult.ok "EXECUTED" []

/-- The fault Python raises for an unresolvable name: a `NameError` whose
message names the undefined identifier. -/
def f0 : Fault :=
  ⟨"NameError", "name " ++ apos ++ "sales" ++ apos ++ " is not defined"⟩

/-- An execution oracle that raises the `NameError` fault. -/
def eFault : String → Sink → ExecResult := fun _ _ => ExecResult.fault f0

/-- An initial interpreter state: stdout at the real sink, which is also the
original `sys.__stdout__`. -/
def s0 : SysState := ⟨Sink.real, Sink.real⟩

/-- A 3-row, 2-column table, the table-result scenario of the spec. -/
def d3 : DataFrame :=
  ⟨["Name", "Salary"], [["a", "50000"], ["b", "120000"], ["c", "75000"]]⟩

/-- A local scope binding the table-result name to the 3-row frame. -/
def locals3 : List (String × PyValue) := [("result_df", PyValue.frame d3)]

/-- A one-row table used for environment-isolation witnesses. -/
def dEmp : DataFrame := ⟨["Name", "Salary"], [["a", "1"]]⟩

/-- A code string that contains the forbidden dunder token only through the
escape-hatch text itself. -/
def bypassExample : String := "x = " ++ bypassToken

/- ===================  Helper lemmas =================== -/

/-- The capture block always returns the oracle's result on the buffer sink
together with the state whose stdout has been reset to the original sink. -/
theorem runCaptured_eq (e : String → Sink → ExecResult) (code : String) (s : SysState) :
    runCaptured e code s = (e code (Sink.buffer ""), ⟨s.dunderStdout, s.dunderStdout⟩) := by
  cases h : e code (Sink.buffer "") <;> simp [runCaptured, h]

/-- Claim C1: code that fails the Admission Gate is never passed to the
execution sandbox.  Whenever the backend gate's rejection condition holds on
the cleaned code, the pipeline returns the 403 security rejection, leaves the
interpreter state untouched, and its outcome is independent of the execution
oracle (so the exec call is never consulted); likewise the CLI loop reaches
the security block, not the exec/eval branch, whenever its gate fires. -/
theorem C1_gate_rejection_blocks_execution (raw : String)
    (h : backendRejects (cleanCode (pyStrip raw)) = true) :
    (∀ e s, (backendPipeline e raw s).1 = Except.error ⟨403, "Unsafe operation detected."⟩
      ∧ (backendPipeline e raw s).2 = s)
    ∧ (∀ e1 e2 s, backendPipeline e1 raw s = backendPipeline e2 raw s)
    ∧ (∀ raw2, mainRejects (mainNormalize raw2) = true →
        mainStep raw2 = MainOutcome.securityBlock (mainNormalize raw2)) := by
  refine ⟨fun e s => ⟨?_, ?_⟩, fun e1 e2 s => ?_, fun raw2 h2 => ?_⟩
  · simp [backendPipeline, h]
  · simp [backendPipeline, h]
  · simp [backendPipeline, h]
  · by_cases h0 : mainNormalize raw2 = ""
    · rw [h0] at h2
      exact absurd h2 (by decide)
    · simp [mainStep, h0, h2]

/-- Witness for C1 at the concrete rejected code `x = os.path`. -/
theorem C1_witness :
    backendRejects (cleanCode (pyStrip "x = os.path")) = true
    ∧ (backendPipeline eOk "x = os.path" s0).1 =
        Except.error ⟨403, "Unsafe operation detected."⟩ :=
  ⟨by decide, ((C1_gate_rejection_blocks_execution "x = os.path" (by decide)).1 eOk s0).1⟩

/-- Claim C2 (refuted on backend.py): a string containing the forbidden dunder
token is nonetheless admitted by the backend gate as soon as it also contains
the escape-hatch text `safe_globals[`+apostrophe+`__builtins__`+apostrophe+`]`,
and the pipeline executes it; the CLI gate, by contrast, rejects the same
string.  This evaluates the code at the failing input of the code_bug. -/
theorem C2_denylist_bypass :
    substrIn "__" bypassExample = true
    ∧ backendRejects bypassExample = false
    ∧ (backendPipeline eExec bypassExample s0).1 =
        Except.ok ⟨"EXECUTED", bypassExample, false, none⟩
    ∧ mainRejects bypassExample = true := by
  refine ⟨by decide, by decide, ?_, by decide⟩
  decide

/-- Claim C3 (counterexample): the binding environment built by the backend
does contain a name with a forbidden token: its builtins slot is keyed by the
dunder name `__builtins__`. -/
theorem C3_counterexample_builtins_name :
    "__builtins__" ∈ (buildEnv []).map Prod.fst
    ∧ substrIn "__" "__builtins__" = true
    ∧ tokenFree "__builtins__" = false := by decide

/-- Claim C3 as amended: apart from the interpreter-mandated builtins slot
`__builtins__`, no name of the binding environment contains a forbidden token
(given that the injected table names contain none), and the curated builtins
mapping consists only of the ten whitelisted pure callables, none of which is
a filesystem, process, network, or reflection primitive. -/
theorem C3_env_names_amended (tables : List (String × DataFrame))
    (h : ∀ n ∈ tables.map Prod.fst, tokenFree n = true) :
    (∀ k ∈ (buildEnv tables).map Prod.fst, k ≠ "__builtins__" → tokenFree k = true)
    ∧ (∀ b ∈ safe_builtins, tokenFree b = true ∧ b ∉ dangerousPrims) := by
  constructor
  · intro k hk hne
    simp [buildEnv] at hk
    rcases hk with h1 | h1 | h1 | h1 | h1 | h1
    · exact absurd h1 hne
    · subst h1; decide
    · subst h1; decide
    · subst h1; decide
    · subst h1; decide
    · obtain ⟨x, hx⟩ := h1
      exact h k (List.mem_map.mpr ⟨(k, x), hx, rfl⟩)
  · decide

/-- Witness for C3 at a concrete single-table environment. -/
theorem C3_witness : tokenFree "file1_Employees" = true :=
  (C3_env_names_amended [("file1_Employees", dEmp)] (by decide)).1
    "file1_Employees" (by decide) (by decide)

/-- Claim C4: the result of statement-mode execution is classified by ordered
checks — chart marker first; else a frame bound to `result_df` is rendered as
the tabular text of its first 20 rows (header line included, one rendered line
per kept row); else `result_value` is stringified; else the captured output or
the explicit no-result placeholder — each later check applying only when all
earlier ones failed. -/
theorem C4_result_classification_order (code pout : String)
    (locals : List (String × PyValue)) :
    (substrIn plotMarker (pyStrip pout) = true →
      (classify code pout locals).is_plot = true)
    ∧ (substrIn plotMarker (pyStrip pout) = false →
        (∀ d, locals.lookup "result_df" = some (PyValue.frame d) →
            classify code pout locals =
              ⟨tabulate (DataFrame.head d 20), code, false, none⟩
            ∧ (tableLines (DataFrame.head d 20)).length = 2 + min 20 d.rows.length
            ∧ renderRow d.cols ∈ tableLines (DataFrame.head d 20))
        ∧ (locals.lookup "result_df" = none →
            (∀ v, locals.lookup "result_value" = some v →
                classify code pout locals = ⟨pyStr v, code, false, none⟩)
            ∧ (locals.lookup "result_value" = none →
                classify code pout locals =
                  ⟨if pyStrip pout = "" then noResultMsg else pyStrip pout,
                    code, false, none⟩))) := by
  constructor
  · intro h
    simp [classify, h]
  · intro h
    refine ⟨fun d hd => ?_, fun hd => ⟨fun v hv => ?_, fun hv => ?_⟩⟩
    · refine ⟨by simp [classify, h, hd], ?_, ?_⟩
      · simp [tableLines, DataFrame.head, List.length_take]
        omega
      · simp [tableLines, DataFrame.head]
    · simp [classify, h, hd, hv]
    · simp [classify, h, hd, hv]

/-- Witness for C4: the 3-row table-result scenario renders with the header
line and exactly 3 data rows (5 rendered lines in all). -/
theorem C4_witness :
    classify "c" "" locals3 = ⟨tabulate (DataFrame.head d3 20), "c", false, none⟩
    ∧ (tableLines (DataFrame.head d3 20)).length = 5 := by
  have h := ((C4_result_classification_order "c" "" locals3).2 (by decide)).1 d3 (by decide)
  exact ⟨h.1, by decide⟩

/-- Claim C5 (counterexample): captured output consisting of the printed line
`Plot saved to x.png` — a line of the exact shape `Plot saved to
<relative-path>` — does NOT yield is_plot=true: the interpreter only probes
for the text `Plot saved to plots/`, so the path must lie under `plots/`. -/
theorem C5_counterexample_marker_needs_plots_dir :
    (classify "c" "Plot saved to x.png" []).is_plot = false
    ∧ (classify "c" "Plot saved to x.png" []).plot_path = none := by decide

/-- Claim C5 as amended: whenever the stripped captured output contains the
text `Plot saved to plots/`, the response has is_plot=true, result equal to
that output, and plot_path the basename (the segment after the final slash)
of the output after deleting every occurrence of `Plot saved to ` and
stripping — for output that is exactly the marker line this is the bare
filename of the saved chart. -/
theorem C5_plot_marker_amended (code pout : String)
    (locals : List (String × PyValue))
    (h : substrIn plotMarker (pyStrip pout) = true) :
    classify code pout locals =
      ⟨pyStrip pout, code, true,
        some (basename (pyStrip (strReplace (pyStrip pout) markerText "")))⟩ := by
  simp [classify, h]

/-- Witness for C5: the chart scenario of the spec, output
`Plot saved to plots/x.png`, yields is_plot=true and the bare, slash-free
filename `x.png`. -/
theorem C5_witness :
    classify "c" "Plot saved to plots/x.png" [] =
      ⟨"Plot saved to plots/x.png", "c", true, some "x.png"⟩
    ∧ substrIn "/" "x.png" = false :=
  ⟨(C5_plot_marker_amended "c" "Plot saved to plots/x.png" [] (by decide)).trans
      (by decide),
   by decide⟩

/-- Claim C6 (counterexample): a whitespace-only model output is NOT rejected
with an empty-code reason by the backend — its cleaned form (the empty
string) passes the denylist scan and is executed, as shown by the execution
oracle's printed marker surfacing as the response result. -/
theorem C6_counterexample_empty_code_not_rejected :
    backendRejects (cleanCode (pyStrip "   ")) = false
    ∧ (backendPipeline eExec "   " s0).1 = Except.ok ⟨"EXECUTED", "", false, none⟩ := by
  refine ⟨by decide, ?_⟩
  decide

/-- Claim C6 as amended: every line surviving the backend cleaner neither
begins (after stripping) with `import ` nor with a fence marker, and in the
CLI loop an empty normalized code string is reported as the distinct
empty-code error before the denylist scan and before any execution; the
backend, however, executes empty cleaned code instead of rejecting it. -/
theorem C6_normalizer_amended :
    (∀ ls : List String, ∀ l ∈ cleanLines ls,
        startsW "import " (pyStrip l) = false ∧ startsW "```" (pyStrip l) = false)
    ∧ (∀ raw, mainNormalize raw = "" → mainStep raw = MainOutcome.emptyError) := by
  constructor
  · intro ls l hl
    have hk : keepLine l = true := List.of_mem_filter hl
    simp [keepLine, Bool.and_eq_true, Bool.not_eq_true'] at hk
    exact hk
  · intro raw h0
    simp [mainStep, h0]

/-- Witness for C6: the kept line `x = 1` of a cleaned two-line output is
neither an import line nor a fence line, and the all-fence CLI output
normalizes to empty and is reported as the empty-code error. -/
theorem C6_witness :
    (startsW "import " (pyStrip "x = 1") = false
      ∧ startsW "```" (pyStrip "x = 1") = false)
    ∧ mainStep "```python\n```" = MainOutcome.emptyError :=
  ⟨C6_normalizer_amended.1 ["import os", "x = 1"] "x = 1" (by decide),
   C6_normalizer_amended.2 "```python\n```" (by decide)⟩

/-- Claim C7: a fault raised while executing admitted code is caught and
surfaced as the 500 server error whose detail carries the fault kind, the
fault message, and the exact executed code string; and code that merely
references an undefined name (`result_df = sales`) is not rejected by the
admission gate. -/
theorem C7_execution_fault_surfaced (raw : String)
    (e : String → Sink → ExecResult) (s : SysState) (f : Fault)
    (hadm : backendRejects (cleanCode (pyStrip raw)) = false)
    (hf : e (cleanCode (pyStrip raw)) (Sink.buffer "") = ExecResult.fault f) :
    (backendPipeline e raw s).1 =
      Except.error ⟨500, "Error executing AI code: " ++ f.kind ++ ": " ++ f.msg ++
        ". AI Code: " ++ cleanCode (pyStrip raw)⟩
    ∧ backendRejects (cleanCode (pyStrip "result_df = sales")) = false := by
  refine ⟨?_, by decide⟩
  simp [backendPipeline, hadm, runCaptured_eq, hf]

/-- Witness for C7: executing `result_df = sales` under a `NameError`-raising
oracle yields the 500 error whose detail names the undefined identifier
`sales` and quotes the executed code. -/
theorem C7_witness :
    (backendPipeline eFault "result_df = sales" s0).1 =
      Except.error ⟨500, "Error executing AI code: NameError: name " ++ apos ++
        "sales" ++ apos ++ " is not defined. AI Code: result_df = sales"⟩
    ∧ substrIn "sales" ("Error executing AI code: " ++ f0.kind ++ ": " ++ f0.msg ++
        ". AI Code: result_df = sales") = true := by
  have h := (C7_execution_fault_surfaced "result_df = sales" eFault s0 f0
    (by decide) (by decide)).1
  exact ⟨h.trans (by decide), by decide⟩

/-- Helper: a name absent from a table list is absent from its environment
image. -/
theorem lookup_tables_none (l : List (String × DataFrame)) (n : String)
    (h : n ∉ l.map Prod.fst) :
    (l.map fun p => (p.1, EnvVal.table p.2)).lookup n = none := by
  induction l with
  | nil => rfl
  | cons p tl ih =>
    simp only [List.map_cons, List.mem_cons, not_or] at h
    have hne : (n == p.1) = false := beq_eq_false_iff_ne.mpr h.1
    simp only [List.map_cons, List.lookup, hne]
    exact ih h.2

/-- Claim C8: the binding environment is built fresh per request from the
policy primitives and that request's tables only — a name bound in run A's
environment that is neither a policy primitive nor among run B's table names
resolves to nothing in run B's environment, so referencing it there raises a
name-resolution fault instead of observing run A's binding. -/
theorem C8_fresh_env_isolation (tA tB : List (String × DataFrame)) (n : String)
    (hA : n ∈ (buildEnv tA).map Prod.fst)
    (hbase : n ∉ baseEnvNames)
    (hB : n ∉ tB.map Prod.fst) :
    (buildEnv tB).lookup n = none := by
  simp only [baseEnvNames, List.mem_cons, List.not_mem_nil, or_false, not_or] at hbase
  obtain ⟨h1, h2, h3, h4, h5⟩ := hbase
  simp only [buildEnv, List.lookup,
    beq_eq_false_iff_ne.mpr h1, beq_eq_false_iff_ne.mpr h2,
    beq_eq_false_iff_ne.mpr h3, beq_eq_false_iff_ne.mpr h4,
    beq_eq_false_iff_ne.mpr h5]
  exact lookup_tables_none tB n hB

/-- Witness for C8: the table name injected only in run A
(`file1_Employees`) is unresolvable in run B's environment. -/
theorem C8_witness :
    (buildEnv [("file2_Sales", dEmp)]).lookup "file1_Employees" = none :=
  C8_fresh_env_isolation [("file1_Employees", dEmp)] [("file2_Sales", dEmp)]
    "file1_Employees" (by decide) (by decide) (by decide)

/-- Claim C9: standard output is redirected to the capture buffer exactly for
the duration of the execution call — the code is executed against the buffer
sink — and on every exit path of the capture block, the normal arm and the
fault arm alike, `sys.stdout` is restored to the original sink
`sys.__stdout__`, which itself is untouched. -/
theorem C9_stdout_restored (e : String → Sink → ExecResult) (code : String)
    (s : SysState) :
    (runCaptured e code s).1 = e code (Sink.buffer "")
    ∧ ((runCaptured e code s).2).stdout = s.dunderStdout
    ∧ ((runCaptured e code s).2).dunderStdout = s.dunderStdout := by
  rw [runCaptured_eq]
  exact ⟨rfl, rfl, rfl⟩

/-- Claim C10: when no chart marker was printed and the local scope binds
`result_df` to a value that is neither a DataFrame nor a Series, the response
is a normal (non-error) response whose result field is the plain
stringification of that value, not a tabular rendering. -/
theorem C10_result_df_non_frame_stringified (code pout : String)
    (locals : List (String × PyValue)) (text : String)
    (h1 : substrIn plotMarker (pyStrip pout) = false)
    (h2 : locals.lookup "result_df" = some (PyValue.other text)) :
    classify code pout locals = ⟨text, code, false, none⟩ := by
  simp [classify, h1, h2]

/-- Witness for C10: `result_df` bound to the scalar 42 yields the plain text
`42`. -/
theorem C10_witness :
    classify "c" "" [("result_df", PyValue.other "42")] = ⟨"42", "c", false, none⟩ :=
  C10_result_df_non_frame_stringified "c" "" [("result_df", PyValue.other "42")]
    "42" (by decide) (by decide)
